import Mathlib

/-!
# Verification of the `reql` RethinkDB driver core (`src/reql/src/lib.rs`)

A shallow embedding of the session / connection layer of the driver:
token leasing (`Session::token`), connection opening (`Session::connection`),
the broken and change-feed flags, `Connection::close`, `Drop for Connection`,
`Session::noreply_wait` and `Session::server`.

Machine integers are modelled as `Nat` reduced `% 2^64` where wrapping
matters.  Stateful Rust methods become explicit state-passing functions;
fallible methods return `Except`.  Parts of the crate that live outside
`lib.rs` (the `err` module, `proto::Payload` serialization, the
`Connection::request` helper in `cmd::run`, the `connect` constructor and
serde decoding) are modelled from the specification and marked as such in
their doc comments.
-/

/-- Modelled from the spec: the `Driver` error kind of the `err` module
(not under `src/`), §7: driver-local faults. -/
inductive Driver where
  | connectionBroken
  | connectionLocked
  | auth (msg : String)
  | ioError (msg : String)
  | json (msg : String)
  | timeout
  | other (msg : String)
deriving Repr, DecidableEq

/-- Modelled from the spec: runtime (server-reported) error kind of the
`err` module, §7; the payload is collapsed to its message since no claim
inspects it. -/
inductive RuntimeErr where
  | server (msg : String)
deriving Repr, DecidableEq

/-- Modelled from the spec: the top-level `Error` type of the `err` module
(`err::Driver::...into()` produces the driver side). -/
inductive Error where
  | driver (e : Driver)
  | runtime (e : RuntimeErr)
deriving Repr, DecidableEq

/-- A JSON value, used for payloads and responses. -/
inductive Json where
  | null
  | bool (b : Bool)
  | num (n : Int)
  | str (s : String)
  | arr (xs : List Json)
  | obj (fields : List (String × Json))

/-- The `QueryType` codes consumed as a fixed vocabulary (spec §4.1). -/
inductive QueryType where
  | start
  | cont
  | stop
  | noreplyWait
  | serverInfo
deriving Repr, DecidableEq

/-- The wire code of a query type (spec §4.1). -/
def QueryType.code : QueryType → Int
  | .start => 1
  | .cont => 2
  | .stop => 3
  | .noreplyWait => 4
  | .serverInfo => 5

/-- The `ResponseType` codes consumed as a fixed vocabulary (spec §4.6). -/
inductive ResponseType where
  | successAtom
  | successSequence
  | successPartialBatch
  | waitComplete
  | serverInfo
  | clientError
  | compileError
  | runtimeError
deriving Repr, DecidableEq

/-- Modelled from the spec: the decoded inbound response body of
`cmd::run::Response` (not under `src/`), §4.1: only the result field `r`
is inspected by the code under verification. -/
structure Response where
  r : Json

/-- A `proto::Payload`: query type, optional term, options (spec §4.1).
The term of `r.expr(json!(v))` is the datum `v` itself (spec §9: `Datum`
emits the JSON value). -/
structure Payload where
  typ : QueryType
  term : Option Json
  opts : List (String × Json)

/-- Modelled from the spec: `proto.rs` serialization of a payload (not
under `src/`), §4.1: a JSON array `[query_type, term?, opts?]`, trailing
empty components omitted. -/
def Payload.serialize (p : Payload) : Json :=
  match p.term with
  | none => .arr [.num p.typ.code]
  | some t =>
    if p.opts.isEmpty then .arr [.num p.typ.code, t]
    else .arr [.num p.typ.code, t, .obj p.opts]

/-- One outbound post-handshake frame: token plus JSON payload (spec §4.1). -/
structure Frame where
  token : Nat
  payload : Json

/-- The value `u64::MAX`. -/
def u64Max : Nat := 2 ^ 64 - 1

/-- Insertion into the `DashMap` routing table, modelled on its key set:
map-insert overwrites the key if present. -/
def channelsInsert (t : Nat) (cs : List Nat) : List Nat :=
  t :: cs.filter (fun k => k ≠ t)

/-- Removal from the `DashMap` routing table, modelled on its key set. -/
def channelsRemove (t : Nat) (cs : List Nat) : List Nat :=
  cs.filter (fun k => k ≠ t)

/-- The `Session` struct of `lib.rs`: default database, routing-table keys
(`channels`), the `token` counter, and the `broken` and `change_feed`
atomic flags.  The TCP stream and the channel senders carry no information
relevant to the claims and are elided. -/
structure Session where
  db : String
  channels : List Nat
  token : Nat
  broken : Bool
  change_feed : Bool
deriving Repr, DecidableEq

/-- The `Connection` struct: the leased token (the session reference is the
explicitly threaded state; the receiver is the routing-table entry). -/
structure Connection where
  token : Nat
deriving Repr, DecidableEq

/-- Embeds `Session::mark_broken`. -/
def Session.markBroken (s : Session) : Session :=
  { s with broken := true }

/-- Embeds `Session::mark_change_feed`. -/
def Session.markChangeFeed (s : Session) : Session :=
  { s with change_feed := true }

/-- Embeds `Session::unmark_change_feed`. -/
def Session.unmarkChangeFeed (s : Session) : Session :=
  { s with change_feed := false }

/-- Embeds `Session::token`: fetch-and-increment of the counter (wrapping
`% 2^64`), returning the pre-increment value; the session is marked broken
when the leased value is `u64::MAX`. -/
def Session.leaseToken (s : Session) : Nat × Session :=
  let token := s.token
  let s' := { s with token := (s.token + 1) % 2 ^ 64 }
  (token, if token = u64Max then s'.markBroken else s')

/-- Embeds `Session::connection`: check `broken` then `change_feed`, lease a
token, insert a sender into the routing table, return the connection.  The
second component is the session state after the call (unchanged when the
call fails, exactly as the Rust returns before any mutation). -/
def Session.connection (s : Session) : Except Error Connection × Session :=
  if s.broken then (.error (.driver .connectionBroken), s)
  else if s.change_feed then (.error (.driver .connectionLocked), s)
  else
    let (token, s') := s.leaseToken
    let s'' := { s' with channels := channelsInsert token s'.channels }
    (.ok ⟨token⟩, s'')

/-- Embeds `impl Drop for Connection`: remove the routing-table entry; if the
session's change-feed flag is set, clear it. -/
def Connection.dropConn (c : Connection) (s : Session) : Session :=
  let s' := { s with channels := channelsRemove c.token s.channels }
  if s'.change_feed then s'.unmarkChangeFeed else s'

/-- Embeds `Connection::close`: a no-op on a non-change-feed session; otherwise
build the `STOP` payload (`noreply_wait` honoured: no term when waiting,
the datum `{"noreply": false}` otherwise), send it, and on success clear
the change-feed flag.  `reqResult` is the outcome of the (spec-modelled)
`Connection::request` round trip: the single response routed to this
connection's token.  Returns the result, the frames written to the socket,
and the session state after the call. -/
def Connection.close (c : Connection) (noreplyWait : Bool) (s : Session)
    (reqResult : Except Error (ResponseType × Response)) :
    Except Error Unit × List Frame × Session :=
  if !s.change_feed then (.ok (), [], s)
  else
    let arg : Option Json :=
      if noreplyWait then none
      else some (.obj [("noreply", .bool false)])
    let payload : Payload := ⟨.stop, arg, []⟩
    let frame : Frame := ⟨c.token, payload.serialize⟩
    match reqResult with
    | .error e => (.error e, [frame], s)
    | .ok _ => (.ok (), [frame], s.unmarkChangeFeed)

/-- Embeds `Session::noreply_wait`: open a connection, send the `NOREPLY_WAIT`
payload under its token, await the one response routed to that token, and
return `Ok(())`; the connection is dropped on every exit path.  Returns the
result, the frames written, and the final session state. -/
def Session.noreplyWait (s : Session)
    (reqResult : Except Error (ResponseType × Response)) :
    Except Error Unit × List Frame × Session :=
  match s.connection with
  | (.error e, s') => (.error e, [], s')
  | (.ok conn, s') =>
    let payload : Payload := ⟨.noreplyWait, none, []⟩
    let frame : Frame := ⟨conn.token, payload.serialize⟩
    match reqResult with
    | .error e => (.error e, [frame], conn.dropConn s')
    | .ok _ => (.ok (), [frame], conn.dropConn s')

/-- Modelled from the spec: the `ServerInfo { id, name, proxy }` record of
the `types` crate (not under `src/`), §4.7. -/
structure ServerInfo where
  id : String
  name : String
  proxy : Bool
deriving Repr, DecidableEq

/-- Look up a field of a JSON object. -/
def Json.lookup (fields : List (String × Json)) (key : String) : Option Json :=
  match fields with
  | [] => none
  | (k, v) :: rest => if k = key then some v else Json.lookup rest key

/-- Modelled from the spec: serde decoding of one `ServerInfo` object. -/
def decodeServerInfo (j : Json) : Option ServerInfo :=
  match j with
  | .obj fields =>
    match Json.lookup fields ("id"), Json.lookup fields ("name"),
        Json.lookup fields ("proxy") with
    | some (.str id), some (.str name), some (.bool proxy) =>
      some ⟨id, name, proxy⟩
    | _, _, _ => none
  | _ => none

/-- Modelled from the spec: serde decoding of `Vec<ServerInfo>` from the
result field `r`; any non-array or undecodable element fails. -/
def decodeServerInfoList (j : Json) : Option (List ServerInfo) :=
  match j with
  | .arr xs => xs.mapM decodeServerInfo
  | _ => none

/-- Embeds `Session::server`: open a connection, send the `SERVER_INFO` payload,
decode the response's result array into `Vec<ServerInfo>` (a decode
failure becomes a `Driver::Json` error via `?`), `pop` the last element
(`Driver::Other` when empty).  The connection is dropped on every exit
path. -/
def Session.server (s : Session)
    (reqResult : Except Error (ResponseType × Response)) :
    Except Error ServerInfo × List Frame × Session :=
  match s.connection with
  | (.error e, s') => (.error e, [], s')
  | (.ok conn, s') =>
    let payload : Payload := ⟨.serverInfo, none, []⟩
    let frame : Frame := ⟨conn.token, payload.serialize⟩
    match reqResult with
    | .error e => (.error e, [frame], conn.dropConn s')
    | .ok (_, resp) =>
      match decodeServerInfoList resp.r with
      | none =>
        (.error (.driver (.json ("error decoding response"))), [frame],
          conn.dropConn s')
      | some infos =>
        match infos.getLast? with
        | none =>
          (.error (.driver (.other ("server info is empty"))), [frame],
            conn.dropConn s')
        | some info => (.ok info, [frame], conn.dropConn s')

/-- Modelled from the spec: `cmd::connect::new` (not under `src/`)
initializes the session with the chosen database, an empty routing table,
`next_token = 1`, and both flags cleared (spec §3). -/
def Session.init (db : String) : Session :=
  { db := db, channels := [], token := 1, broken := false,
    change_feed := false }

/-- The operations of `lib.rs` that touch session state, for stating
temporal properties over arbitrary interleavings.  Request outcomes are
carried as data. -/
inductive Op where
  | connection
  | useDb (name : String)
  | noreplyWait (r : Except Error (ResponseType × Response))
  | serverInfo (r : Except Error (ResponseType × Response))
  | close (tok : Nat) (noreplyWait : Bool)
      (r : Except Error (ResponseType × Response))
  | dropConn (tok : Nat)
  | markBroken
  | markChangeFeed
  | unmarkChangeFeed

/-- The session-state effect of one operation. -/
def Session.step (s : Session) : Op → Session
  | .connection => s.connection.2
  | .useDb name => { s with db := name }
  | .noreplyWait r => (s.noreplyWait r).2.2
  | .serverInfo r => (s.server r).2.2
  | .close tok w r => (Connection.close ⟨tok⟩ w s r).2.2
  | .dropConn tok => Connection.dropConn ⟨tok⟩ s
  | .markBroken => s.markBroken
  | .markChangeFeed => s.markChangeFeed
  | .unmarkChangeFeed => s.unmarkChangeFeed

/-- The session state after a sequence of operations. -/
def Session.run (s : Session) (ops : List Op) : Session :=
  ops.foldl Session.step s

/-- The tokens handed out by `n` successive `connection()` calls on a
session, stopping at the first failure. -/
def leaseTokens (s : Session) : Nat → List Nat
  | 0 => []
  | n + 1 =>
    match s.connection with
    | (.ok c, s') => c.token :: leaseTokens s' n
    | (.error _, _) => []

/-! ## Helper lemmas -/

theorem connection_of_broken (s : Session) (hb : s.broken = true) :
    s.connection = (.error (.driver .connectionBroken), s) := by
  simp [Session.connection, hb]

theorem connection_of_locked (s : Session) (hb : s.broken = false)
    (hc : s.change_feed = true) :
    s.connection = (.error (.driver .connectionLocked), s) := by
  simp [Session.connection, hb, hc]

theorem connection_of_open (s : Session) (hb : s.broken = false)
    (hc : s.change_feed = false) :
    s.connection =
      (.ok ⟨s.token⟩,
        { db := s.db,
          channels := channelsInsert s.token s.channels,
          token := (s.token + 1) % 2 ^ 64,
          broken := decide (s.token = u64Max),
          change_feed := false }) := by
  obtain ⟨db, chans, tok, b, cf⟩ := s
  simp only [Session.broken] at hb
  simp only [Session.change_feed] at hc
  subst hb
  subst hc
  by_cases hm : tok = u64Max
  · simp [Session.connection, Session.leaseToken, Session.markBroken, hm]
  · simp [Session.connection, Session.leaseToken, Session.markBroken, hm]

theorem dropConn_broken_eq (c : Connection) (s : Session) :
    (c.dropConn s).broken = s.broken := by
  simp only [Connection.dropConn, Session.unmarkChangeFeed]
  split <;> rfl

theorem close_broken_eq (c : Connection) (w : Bool) (s : Session)
    (r : Except Error (ResponseType × Response)) :
    (Connection.close c w s r).2.2.broken = s.broken := by
  simp only [Connection.close, Session.unmarkChangeFeed]
  split
  · rfl
  · split <;> rfl

theorem step_preserves_broken (s : Session) (h : s.broken = true) (op : Op) :
    (s.step op).broken = true := by
  cases op with
  | connection => simpa [Session.step, connection_of_broken s h] using h
  | useDb name => exact h
  | noreplyWait r => simpa [Session.step, Session.noreplyWait, connection_of_broken s h] using h
  | serverInfo r => simpa [Session.step, Session.server, connection_of_broken s h] using h
  | close tok w r => rw [Session.step, close_broken_eq]; exact h
  | dropConn tok => rw [Session.step, dropConn_broken_eq]; exact h
  | markBroken => rfl
  | markChangeFeed => exact h
  | unmarkChangeFeed => exact h

theorem run_preserves_broken (ops : List Op) :
    ∀ (s : Session), s.broken = true → (s.run ops).broken = true := by
  induction ops with
  | nil => intro s h; exact h
  | cons op ops ih =>
    intro s h
    exact ih (s.step op) (step_preserves_broken s h op)

theorem leaseTokens_of_broken (s : Session) (h : s.broken = true) (n : Nat) :
    leaseTokens s n = [] := by
  cases n with
  | zero => rfl
  | succ n => simp [leaseTokens, connection_of_broken s h]

theorem leaseTokens_chain (n : Nat) :
    ∀ (s : Session), s.broken = false → s.change_feed = false →
      s.token ≤ u64Max →
      List.Chain' (· < ·) (leaseTokens s n) ∧
        ∀ x ∈ leaseTokens s n, s.token ≤ x := by
  induction n with
  | zero => intro s _ _ _; simp [leaseTokens]
  | succ n ih =>
    intro s hb hc ht
    rw [leaseTokens, connection_of_open s hb hc]
    dsimp only
    by_cases hm : s.token = u64Max
    · rw [leaseTokens_of_broken _ (by simp [hm]) n]
      simp
    · have hmax : s.token < u64Max := Nat.lt_of_le_of_ne ht hm
      have hlt : s.token + 1 < 2 ^ 64 := by
        simp only [u64Max] at hmax
        omega
      have hmod : (s.token + 1) % 2 ^ 64 = s.token + 1 := Nat.mod_eq_of_lt hlt
      have hnext := ih
        { db := s.db, channels := channelsInsert s.token s.channels,
          token := (s.token + 1) % 2 ^ 64,
          broken := decide (s.token = u64Max), change_feed := false }
        (by simp [hm]) rfl
        (by simp only [hmod]; omega)
      simp only at hnext
      constructor
      · refine List.chain'_cons'.mpr ⟨?_, hnext.1⟩
        intro y hy
        have := hnext.2 y (List.mem_of_mem_head? hy)
        simp only [hmod] at this
        omega
      · intro x hx
        rcases List.mem_cons.mp hx with h | h
        · omega
        · have := hnext.2 x h
          simp only [hmod] at this
          omega

theorem channelsInsert_count (t : Nat) (cs : List Nat) :
    (channelsInsert t cs).count t = 1 := by
  simp [channelsInsert, List.count_cons]
  rw [List.count_eq_zero]
  simp

theorem channelsInsert_mem_iff (t k : Nat) (cs : List Nat) (hk : k ≠ t) :
    k ∈ channelsInsert t cs ↔ k ∈ cs := by
  simp [channelsInsert, hk]

/-! ## Claims -/

/-- C1: the tokens leased by successive `connection()` calls on one session
form a strictly increasing sequence starting at 1; in particular any two
distinct connections leased from the same session carry different tokens. -/
theorem leased_tokens_strictly_increasing_from_one (db : String) (n : Nat) :
    List.Chain' (· < ·) (leaseTokens (Session.init db) n) ∧
    (leaseTokens (Session.init db) (n + 1)).head? = some 1 ∧
    List.Pairwise (· ≠ ·) (leaseTokens (Session.init db) n) := by
  have hch := leaseTokens_chain n (Session.init db) rfl rfl
    (by simp [Session.init, u64Max])
  refine ⟨hch.1, ?_, ?_⟩
  · rw [leaseTokens, connection_of_open _ rfl rfl]
    rfl
  · exact (List.chain'_iff_pairwise.mp hch.1).imp fun h => Nat.ne_of_lt h

/-- C2: `connection()` fails with `ConnectionBroken` when the broken flag is
set, with `ConnectionLocked` when the change-feed flag is set, and otherwise
leases the counter's token, inserts exactly one sender under it, and returns
a connection bound to it. -/
theorem connection_gate_and_lease (s : Session) :
    (s.broken = true → s.connection = (.error (.driver .connectionBroken), s)) ∧
    (s.broken = false → s.change_feed = true →
      s.connection = (.error (.driver .connectionLocked), s)) ∧
    (s.broken = false → s.change_feed = false →
      ∃ c : Connection, s.connection.1 = .ok c ∧ c.token = s.token ∧
        (s.connection.2).channels = channelsInsert c.token s.channels ∧
        (s.connection.2).channels.count c.token = 1 ∧
        (∀ k, k ≠ c.token →
          (k ∈ (s.connection.2).channels ↔ k ∈ s.channels))) := by
  refine ⟨fun hb => connection_of_broken s hb,
    fun hb hc => connection_of_locked s hb hc, fun hb hc => ?_⟩
  rw [connection_of_open s hb hc]
  refine ⟨⟨s.token⟩, rfl, rfl, rfl, channelsInsert_count _ _, ?_⟩
  intro k hk
  exact channelsInsert_mem_iff s.token k s.channels hk

theorem connection_gate_and_lease_witness :
    ((Session.mk ("test") [] 1 true false).connection
      = (.error (.driver .connectionBroken), Session.mk ("test") [] 1 true false)) ∧
    ((Session.mk ("test") [] 1 false true).connection
      = (.error (.driver .connectionLocked), Session.mk ("test") [] 1 false true)) ∧
    (∃ c : Connection, (Session.mk ("test") [] 1 false false).connection.1
      = .ok c) := by
  refine ⟨(connection_gate_and_lease _).1 rfl,
    (connection_gate_and_lease _).2.1 rfl rfl, ?_⟩
  obtain ⟨c, hc, -⟩ :=
    (connection_gate_and_lease (Session.mk ("test") [] 1 false false)).2.2 rfl rfl
  exact ⟨c, hc⟩

/-- C3: the `connection()` call that leases `u64::MAX` marks the session
broken, and after it every further `connection()` call (after any
interleaving of operations) fails with `ConnectionBroken`; no further lease
succeeds. -/
theorem token_exhaustion_permanently_fails (s : Session) (hb : s.broken = false)
    (hc : s.change_feed = false) (ht : s.token = u64Max) :
    s.connection.1 = .ok ⟨u64Max⟩ ∧
    (s.connection.2).broken = true ∧
    (∀ ops : List Op, ((s.connection.2).run ops).connection.1
      = .error (.driver .connectionBroken)) := by
  rw [connection_of_open s hb hc]
  refine ⟨by rw [ht], by simp [ht], fun ops => ?_⟩
  have hbroken : (Session.mk s.db (channelsInsert s.token s.channels)
      ((s.token + 1) % 2 ^ 64) (decide (s.token = u64Max)) false).broken = true := by
    simp [ht]
  have hrun := run_preserves_broken ops _ hbroken
  rw [connection_of_broken _ hrun]

theorem token_exhaustion_permanently_fails_witness :
    (Session.mk ("test") [] u64Max false false).connection.1 = .ok ⟨u64Max⟩ ∧
    ((Session.mk ("test") [] u64Max false false).connection.2).broken = true ∧
    (((Session.mk ("test") [] u64Max false false).connection.2).run
      [.markChangeFeed]).connection.1 = .error (.driver .connectionBroken) := by
  have h := token_exhaustion_permanently_fails
    (Session.mk ("test") [] u64Max false false) rfl rfl rfl
  exact ⟨h.1, h.2.1, h.2.2 [.markChangeFeed]⟩

/-- C4: the broken flag is never cleared by any session or connection
operation, and once it is set every `connection()`, `noreply_wait()` and
`server()` call fails with `ConnectionBroken`. -/
theorem broken_flag_is_permanent (s : Session) (h : s.broken = true) :
    (∀ op : Op, (s.step op).broken = true) ∧
    (∀ ops : List Op, (s.run ops).broken = true) ∧
    s.connection.1 = .error (.driver .connectionBroken) ∧
    (∀ r, (s.noreplyWait r).1 = .error (.driver .connectionBroken)) ∧
    (∀ r, (s.server r).1 = .error (.driver .connectionBroken)) := by
  refine ⟨step_preserves_broken s h, fun ops => run_preserves_broken ops s h,
    ?_, ?_, ?_⟩
  · rw [connection_of_broken s h]
  · intro r; simp [Session.noreplyWait, connection_of_broken s h]
  · intro r; simp [Session.server, connection_of_broken s h]

theorem broken_flag_is_permanent_witness :
    ((Session.mk ("test") [5] 7 true false).step (.dropConn 5)).broken = true ∧
    (Session.mk ("test") [5] 7 true false).connection.1
      = .error (.driver .connectionBroken) ∧
    ((Session.mk ("test") [5] 7 true false).noreplyWait
      (.ok (.waitComplete, ⟨.null⟩))).1 = .error (.driver .connectionBroken) := by
  have h := broken_flag_is_permanent (Session.mk ("test") [5] 7 true false) rfl
  exact ⟨h.1 (.dropConn 5), h.2.2.1, h.2.2.2.1 (.ok (.waitComplete, ⟨.null⟩))⟩

/-- C10: when both the broken and the change-feed flag are set,
`connection()` fails with `ConnectionBroken` (the broken check precedes the
lock check), and any failing `connection()` call leaves the session state
(token counter, routing table, flags) unchanged. -/
theorem connection_broken_precedence_and_no_side_effect (s : Session) :
    (s.broken = true ∧ s.change_feed = true →
      s.connection = (.error (.driver .connectionBroken), s)) ∧
    (∀ e, s.connection.1 = .error e → s.connection.2 = s) := by
  constructor
  · rintro ⟨hb, -⟩
    exact connection_of_broken s hb
  · intro e he
    by_cases hb : s.broken = true
    · rw [connection_of_broken s hb]
    · have hb' : s.broken = false := by simpa using hb
      by_cases hc : s.change_feed = true
      · rw [connection_of_locked s hb' hc]
      · have hc' : s.change_feed = false := by simpa using hc
        rw [connection_of_open s hb' hc'] at he
        simp at he

theorem connection_broken_precedence_and_no_side_effect_witness :
    (Session.mk ("test") [] 1 true true).connection
      = (.error (.driver .connectionBroken), Session.mk ("test") [] 1 true true) ∧
    (Session.mk ("test") [] 1 true true).connection.2
      = Session.mk ("test") [] 1 true true := by
  have h := connection_broken_precedence_and_no_side_effect
    (Session.mk ("test") [] 1 true true)
  exact ⟨h.1 ⟨rfl, rfl⟩, h.2 (.driver .connectionBroken)
    (by rw [(h.1 ⟨rfl, rfl⟩)])⟩

/-- The drop behaviour as the spec words it, with explicit change-feed
ownership ("if the session had `change_feed_active` and this connection was
the owner, clear it").  `ownerToken` is the token of the connection that
owns the feed; the source's `Connection.dropConn` tracks no such owner, and
this definition exists only to be compared against it. -/
def dropConnSpec (ownerToken : Nat) (c : Connection) (s : Session) : Session :=
  let s' := { s with channels := channelsRemove c.token s.channels }
  if s'.change_feed ∧ c.token = ownerToken then s'.unmarkChangeFeed else s'

/-- C5 counterexample: a session whose change-feed flag is set, with the
feed owned by the connection with token 1; dropping the unrelated
connection with token 2 nonetheless clears the flag, while the claim's
owner-guarded drop leaves it set. -/
theorem dropConn_nonowner_clears_flag :
    (Connection.dropConn ⟨2⟩ (Session.mk ("test") [1, 2] 3 false true)).change_feed
      = false ∧
    (dropConnSpec 1 ⟨2⟩ (Session.mk ("test") [1, 2] 3 false true)).change_feed
      = true := by
  exact ⟨rfl, rfl⟩

/-- C5 amended: dropping a connection removes its token's entry from the
routing table and clears the session's change-feed flag whenever that flag
is set, regardless of which connection is dropped; the database, token
counter and broken flag are untouched. -/
theorem dropConn_removes_entry_and_clears_flag (c : Connection) (s : Session) :
    (c.dropConn s).channels = channelsRemove c.token s.channels ∧
    (c.dropConn s).change_feed = false ∧
    (c.dropConn s).db = s.db ∧
    (c.dropConn s).token = s.token ∧
    (c.dropConn s).broken = s.broken := by
  simp only [Connection.dropConn, Session.unmarkChangeFeed]
  split
  · exact ⟨rfl, rfl, rfl, rfl, rfl⟩
  · next h => exact ⟨rfl, by simpa using h, rfl, rfl, rfl⟩

/-- C7: `close()` on a connection whose session has no change feed active is
a no-op: it returns success, writes no frame, and leaves the whole session
state unchanged. -/
theorem close_without_change_feed_is_noop (c : Connection) (w : Bool)
    (s : Session) (req : Except Error (ResponseType × Response))
    (hcf : s.change_feed = false) :
    Connection.close c w s req = (.ok (), [], s) := by
  simp [Connection.close, hcf]

theorem close_without_change_feed_is_noop_witness :
    Connection.close ⟨7⟩ true (Session.mk ("test") [7] 8 false false)
        (.ok (.waitComplete, ⟨.null⟩))
      = (.ok (), [], Session.mk ("test") [7] 8 false false) :=
  close_without_change_feed_is_noop ⟨7⟩ true _ _ rfl

/-- C8: `noreply_wait()` on an operable session leases the fresh token (the
counter's current value), sends exactly one frame — the `NOREPLY_WAIT`
payload `[4]` — under that token, and returns success upon the single
`WAIT_COMPLETE` response routed back for that token. -/
theorem noreply_wait_payload_and_success (s : Session) (resp : Response)
    (hb : s.broken = false) (hc : s.change_feed = false) :
    (s.noreplyWait (.ok (.waitComplete, resp))).1 = .ok () ∧
    (s.noreplyWait (.ok (.waitComplete, resp))).2.1
      = [⟨s.token, .arr [.num 4]⟩] := by
  simp only [Session.noreplyWait]
  rw [connection_of_open s hb hc]
  exact ⟨rfl, rfl⟩

theorem noreply_wait_payload_and_success_witness :
    ((Session.mk ("test") [] 1 false false).noreplyWait
      (.ok (.waitComplete, ⟨.null⟩))).1 = .ok () ∧
    ((Session.mk ("test") [] 1 false false).noreplyWait
      (.ok (.waitComplete, ⟨.null⟩))).2.1 = [⟨1, .arr [.num 4]⟩] :=
  noreply_wait_payload_and_success (Session.mk ("test") [] 1 false false)
    ⟨.null⟩ rfl rfl

/-- C6: closing a change-feed connection sends one `STOP` frame under the
connection's token — payload `[3]` when waiting for noreply writes,
`[3, {"noreply": false}]` otherwise — and on success clears the session's
change-feed flag, so a subsequent `connection()` call is no longer refused
with `ConnectionLocked`. -/
theorem close_change_feed_stops_and_unlocks (c : Connection) (s : Session)
    (t : ResponseType) (resp : Response) (hcf : s.change_feed = true) :
    Connection.close c true s (.ok (t, resp))
      = (.ok (), [⟨c.token, .arr [.num 3]⟩], s.unmarkChangeFeed) ∧
    Connection.close c false s (.ok (t, resp))
      = (.ok (), [⟨c.token, .arr [.num 3, .obj [("noreply", .bool false)]]⟩],
          s.unmarkChangeFeed) ∧
    (Connection.close c true s (.ok (t, resp))).2.2.connection.1
      ≠ .error (.driver .connectionLocked) := by
  have h1 : Connection.close c true s (.ok (t, resp))
      = (.ok (), [⟨c.token, .arr [.num 3]⟩], s.unmarkChangeFeed) := by
    simp [Connection.close, hcf, Payload.serialize, QueryType.code]
  have h2 : Connection.close c false s (.ok (t, resp))
      = (.ok (), [⟨c.token, .arr [.num 3, .obj [("noreply", .bool false)]]⟩],
          s.unmarkChangeFeed) := by
    simp [Connection.close, hcf, Payload.serialize, QueryType.code]
  refine ⟨h1, h2, ?_⟩
  rw [h1]
  by_cases hb : s.broken = true
  · rw [connection_of_broken s.unmarkChangeFeed (by simpa [Session.unmarkChangeFeed] using hb)]
    simp
  · have hb' : (s.unmarkChangeFeed).broken = false := by
      simpa [Session.unmarkChangeFeed] using hb
    rw [connection_of_open s.unmarkChangeFeed hb' rfl]
    simp

theorem close_change_feed_stops_and_unlocks_witness :
    Connection.close ⟨4⟩ true (Session.mk ("test") [4] 5 false true)
        (.ok (.successSequence, ⟨.null⟩))
      = (.ok (), [⟨4, .arr [.num 3]⟩],
          (Session.mk ("test") [4] 5 false true).unmarkChangeFeed) ∧
    Connection.close ⟨4⟩ false (Session.mk ("test") [4] 5 false true)
        (.ok (.successSequence, ⟨.null⟩))
      = (.ok (), [⟨4, .arr [.num 3, .obj [("noreply", .bool false)]]⟩],
          (Session.mk ("test") [4] 5 false true).unmarkChangeFeed) := by
  have h := close_change_feed_stops_and_unlocks ⟨4⟩
    (Session.mk ("test") [4] 5 false true) .successSequence ⟨.null⟩ rfl
  exact ⟨h.1, h.2.1⟩

/-- C9: `server()` never panics on a server payload: it is total in the
response, and a response whose result array cannot be decoded into server
info is surfaced as an error — a `Driver::Json` error whenever the
connection gate passes. -/
theorem server_decoding_failure_is_error (s : Session) (t : ResponseType)
    (resp : Response) (hdec : decodeServerInfoList resp.r = none) :
    (∃ e, (s.server (.ok (t, resp))).1 = .error e) ∧
    (s.broken = false → s.change_feed = false →
      (s.server (.ok (t, resp))).1
        = .error (.driver (.json ("error decoding response")))) := by
  have hmain : ∀ hb : s.broken = false, ∀ hc : s.change_feed = false,
      (s.server (.ok (t, resp))).1
        = .error (.driver (.json ("error decoding response"))) := by
    intro hb hc
    simp only [Session.server]
    rw [connection_of_open s hb hc]
    simp [hdec]
  refine ⟨?_, hmain⟩
  by_cases hb : s.broken = true
  · exact ⟨.driver .connectionBroken, by
      simp [Session.server, connection_of_broken s hb]⟩
  · have hb' : s.broken = false := by simpa using hb
    by_cases hc : s.change_feed = true
    · exact ⟨.driver .connectionLocked, by
        simp [Session.server, connection_of_locked s hb' hc]⟩
    · have hc' : s.change_feed = false := by simpa using hc
      exact ⟨.driver (.json ("error decoding response")), hmain hb' hc'⟩

theorem server_decoding_failure_is_error_witness :
    decodeServerInfoList (Json.num 5) = none ∧
    ((Session.mk ("test") [] 1 false false).server
      (.ok (.serverInfo, ⟨.num 5⟩))).1
        = .error (.driver (.json ("error decoding response"))) :=
  ⟨rfl, (server_decoding_failure_is_error (Session.mk ("test") [] 1 false false)
    .serverInfo ⟨.num 5⟩ rfl).2 rfl rfl⟩
